import Mathlib

/-!
Verification of the AlgoPulse editor's Judge0 execution client
(`Judge0Service` in the repository) and its template loader, against the
natural-language specification.

The TypeScript source is shallowly embedded:

* `encodeBase64` in the source is `btoa(unescape(encodeURIComponent(str)))`,
  which is exactly "base64 of the UTF-8 bytes of the string"; `decodeBase64`
  is `decodeURIComponent(escape(atob(str)))`, exactly "UTF-8 decode of the
  base64-decoded bytes".  We embed both as executable functions over
  `List Nat` byte sequences.  (The `catch` fallbacks in the source fire only
  on lone surrogates or malformed input, which valid Lean strings and
  encoder-produced base64 never contain, so the primary path is total here.)
* Network effects are embedded by passing the remote service's responses in
  as explicit oracle data (`SubmitResponse`, `PollResponse`); each operation
  additionally returns the number of network requests it issued.
* JavaScript truthiness of the optional string fields (`if (result.stdout)`,
  `stdin ? ... : ""`, `time || "N/A"`) is embedded by `jsTruthy`:
  a field is truthy iff it is present and non-empty (for numbers: non-zero).
-/

/-! ## Base64 codec (embedding of `encodeBase64` / `decodeBase64`) -/

/-- The standard base64 alphabet used by `btoa` / `atob`. -/
def base64Alphabet : List Char :=
  "ABCDEFGHIJKLMNOPQRSTUVWXYZabcdefghijklmnopqrstuvwxyz0123456789+/".data

/-- Character for a 6-bit group. -/
def sextetChar (n : Nat) : Char := base64Alphabet.getD n 'A'

/-- 6-bit value of an alphabet character (inverse of `sextetChar`). -/
def sextetVal (c : Char) : Nat := base64Alphabet.indexOf c

/-- Base64-encode a byte sequence, three bytes at a time, padding with `=`
exactly as `btoa` does. -/
def encodeChunks : List Nat → List Char
  | [] => []
  | [b1] =>
    [sextetChar (b1 / 4), sextetChar (b1 % 4 * 16), '=', '=']
  | [b1, b2] =>
    [sextetChar (b1 / 4), sextetChar (b1 % 4 * 16 + b2 / 16),
     sextetChar (b2 % 16 * 4), '=']
  | b1 :: b2 :: b3 :: rest =>
    sextetChar (b1 / 4) :: sextetChar (b1 % 4 * 16 + b2 / 16) ::
    sextetChar (b2 % 16 * 4 + b3 / 64) :: sextetChar (b3 % 64) ::
    encodeChunks rest

/-- Base64-decode four characters at a time, honouring `=` padding exactly
as `atob` does. -/
def decodeChunks : List Char → List Nat
  | c1 :: c2 :: c3 :: c4 :: rest =>
    if c3 = '=' then
      [sextetVal c1 * 4 + sextetVal c2 / 16]
    else if c4 = '=' then
      [sextetVal c1 * 4 + sextetVal c2 / 16,
       sextetVal c2 % 16 * 16 + sextetVal c3 / 4]
    else
      (sextetVal c1 * 4 + sextetVal c2 / 16) ::
      (sextetVal c2 % 16 * 16 + sextetVal c3 / 4) ::
      (sextetVal c3 % 4 * 64 + sextetVal c4) ::
      decodeChunks rest
  | _ => []

theorem sextetVal_sextetChar : ∀ n, n < 64 → sextetVal (sextetChar n) = n := by
  decide

theorem sextetChar_ne_eq : ∀ n, n < 64 → sextetChar n ≠ '=' := by
  decide

theorem decodeChunks_encodeChunks :
    ∀ l : List Nat, (∀ b ∈ l, b < 256) → decodeChunks (encodeChunks l) = l
  | [], _ => rfl
  | [b1], h => by
    have hb1 : b1 < 256 := h b1 (by simp)
    rw [encodeChunks, decodeChunks]
    rw [if_pos rfl]
    rw [sextetVal_sextetChar _ (by omega), sextetVal_sextetChar _ (by omega)]
    simp only [List.cons.injEq, and_true]
    omega
  | [b1, b2], h => by
    have hb1 : b1 < 256 := h b1 (by simp)
    have hb2 : b2 < 256 := h b2 (by simp)
    rw [encodeChunks, decodeChunks]
    rw [if_neg (sextetChar_ne_eq _ (by omega)), if_pos rfl]
    rw [sextetVal_sextetChar _ (by omega), sextetVal_sextetChar _ (by omega),
      sextetVal_sextetChar _ (by omega)]
    simp only [List.cons.injEq, and_true]
    omega
  | b1 :: b2 :: b3 :: rest, h => by
    have hb1 : b1 < 256 := h b1 (by simp)
    have hb2 : b2 < 256 := h b2 (by simp)
    have hb3 : b3 < 256 := h b3 (by simp)
    have ih := decodeChunks_encodeChunks rest (fun b hb => h b (by simp [hb]))
    rw [encodeChunks, decodeChunks]
    rw [if_neg (sextetChar_ne_eq _ (by omega)), if_neg (sextetChar_ne_eq _ (by omega))]
    rw [sextetVal_sextetChar _ (by omega), sextetVal_sextetChar _ (by omega),
      sextetVal_sextetChar _ (by omega), sextetVal_sextetChar _ (by omega)]
    simp only [List.cons.injEq]
    refine ⟨by omega, by omega, by omega, ih⟩

/-! ## UTF-8 codec (the `encodeURIComponent`/`unescape` byte layer) -/

/-- UTF-8 encoding of a single code point. -/
def utf8EncodeCp (n : Nat) : List Nat :=
  if n < 128 then [n]
  else if n < 2048 then [192 + n / 64, 128 + n % 64]
  else if n < 65536 then [224 + n / 4096, 128 + n / 64 % 64, 128 + n % 64]
  else [240 + n / 262144, 128 + n / 4096 % 64, 128 + n / 64 % 64, 128 + n % 64]

/-- UTF-8 decoding of a byte sequence to code points (best effort on
malformed input, exact on well-formed input).  `k` is the number of
continuation bytes still expected and `acc` the partial code point. -/
def utf8DecodeSM : Nat → Nat → List Nat → List Nat
  | _, _, [] => []
  | 0, _, b :: rest =>
    if b < 128 then b :: utf8DecodeSM 0 0 rest
    else if b < 224 then utf8DecodeSM 1 (b - 192) rest
    else if b < 240 then utf8DecodeSM 2 (b - 224) rest
    else utf8DecodeSM 3 (b - 240) rest
  | 1, acc, b :: rest => (acc * 64 + b % 64) :: utf8DecodeSM 0 0 rest
  | k + 2, acc, b :: rest => utf8DecodeSM (k + 1) (acc * 64 + b % 64) rest

/-- UTF-8 decoding of a byte sequence, from the initial state. -/
def utf8Decode (l : List Nat) : List Nat := utf8DecodeSM 0 0 l

theorem utf8EncodeCp_lt_256 (n : Nat) (hn : n < 1114112) :
    ∀ b ∈ utf8EncodeCp n, b < 256 := by
  intro b hb
  unfold utf8EncodeCp at hb
  by_cases h1 : n < 128
  · rw [if_pos h1] at hb
    simp only [List.mem_singleton] at hb
    omega
  · rw [if_neg h1] at hb
    by_cases h2 : n < 2048
    · rw [if_pos h2] at hb
      simp only [List.mem_cons, List.not_mem_nil, or_false] at hb
      rcases hb with hb | hb <;> omega
    · rw [if_neg h2] at hb
      by_cases h3 : n < 65536
      · rw [if_pos h3] at hb
        simp only [List.mem_cons, List.not_mem_nil, or_false] at hb
        rcases hb with hb | hb | hb <;> omega
      · rw [if_neg h3] at hb
        simp only [List.mem_cons, List.not_mem_nil, or_false] at hb
        rcases hb with hb | hb | hb | hb <;> omega

theorem utf8Decode_encode_append (n : Nat) (hn : n < 1114112) (rest : List Nat) :
    utf8Decode (utf8EncodeCp n ++ rest) = n :: utf8Decode rest := by
  unfold utf8Decode utf8EncodeCp
  by_cases h1 : n < 128
  · rw [if_pos h1]
    show utf8DecodeSM 0 0 (n :: rest) = n :: utf8DecodeSM 0 0 rest
    rw [utf8DecodeSM, if_pos h1]
  · rw [if_neg h1]
    by_cases h2 : n < 2048
    · rw [if_pos h2]
      show utf8DecodeSM 0 0 ((192 + n / 64) :: (128 + n % 64) :: rest)
          = n :: utf8DecodeSM 0 0 rest
      rw [utf8DecodeSM, if_neg (by omega), if_pos (by omega), utf8DecodeSM]
      congr 1
      omega
    · rw [if_neg h2]
      by_cases h3 : n < 65536
      · rw [if_pos h3]
        show utf8DecodeSM 0 0 ((224 + n / 4096) :: (128 + n / 64 % 64) :: (128 + n % 64) :: rest)
            = n :: utf8DecodeSM 0 0 rest
        rw [utf8DecodeSM, if_neg (by omega), if_neg (by omega), if_pos (by omega),
          utf8DecodeSM, utf8DecodeSM]
        congr 1
        omega
      · rw [if_neg h3]
        show utf8DecodeSM 0 0
            ((240 + n / 262144) :: (128 + n / 4096 % 64) :: (128 + n / 64 % 64) ::
              (128 + n % 64) :: rest) = n :: utf8DecodeSM 0 0 rest
        rw [utf8DecodeSM, if_neg (by omega), if_neg (by omega), if_neg (by omega),
          utf8DecodeSM, utf8DecodeSM, utf8DecodeSM]
        congr 1
        omega

/-- UTF-8 encoding of a character sequence. -/
def utf8Encode : List Char → List Nat
  | [] => []
  | c :: rest => utf8EncodeCp c.toNat ++ utf8Encode rest

theorem char_toNat_lt (c : Char) : c.toNat < 1114112 := by
  rcases c.valid with h | h
  · exact Nat.lt_trans h (by norm_num)
  · exact h.2

theorem utf8Encode_lt_256 : ∀ l : List Char, ∀ b ∈ utf8Encode l, b < 256
  | [], b, hb => by simp [utf8Encode] at hb
  | c :: rest, b, hb => by
    rw [utf8Encode] at hb
    rcases List.mem_append.mp hb with hb | hb
    · exact utf8EncodeCp_lt_256 c.toNat (char_toNat_lt c) b hb
    · exact utf8Encode_lt_256 rest b hb

theorem utf8Decode_utf8Encode :
    ∀ l : List Char, utf8Decode (utf8Encode l) = l.map Char.toNat
  | [] => rfl
  | c :: rest => by
    rw [utf8Encode, utf8Decode_encode_append c.toNat (char_toNat_lt c),
      utf8Decode_utf8Encode rest, List.map]

/-! ## `encodeBase64` / `decodeBase64` (from `Judge0Service`) -/

/-- Embedding of `Judge0Service.encodeBase64`:
`btoa(unescape(encodeURIComponent(str)))`, i.e. base64 of the UTF-8 bytes. -/
def encodeBase64 (s : String) : String :=
  String.mk (encodeChunks (utf8Encode s.data))

/-- Embedding of `Judge0Service.decodeBase64`:
`decodeURIComponent(escape(atob(str)))`, i.e. UTF-8 decode of the base64
bytes. -/
def decodeBase64 (s : String) : String :=
  String.mk ((utf8Decode (decodeChunks s.data)).map Char.ofNat)

/-- C4: for every string — ASCII, multi-byte Unicode, or empty — the
transport codec round-trips: `decodeBase64 (encodeBase64 s) = s`. -/
theorem decodeBase64_encodeBase64 (s : String) :
    decodeBase64 (encodeBase64 s) = s := by
  obtain ⟨l⟩ := s
  show String.mk ((utf8Decode (decodeChunks (encodeChunks (utf8Encode l)))).map Char.ofNat)
      = String.mk l
  rw [decodeChunks_encodeChunks _ (utf8Encode_lt_256 l), utf8Decode_utf8Encode,
    List.map_map]
  congr 1
  have : (Char.ofNat ∘ Char.toNat) = id := by
    funext c
    exact Char.ofNat_toNat c
  rw [this, List.map_id]

/-! ## Execution results and `formatOutput` -/

/-- The `status` object of an `ExecutionResult`. -/
structure ResultStatus where
  id : Int
  description : String
deriving DecidableEq

/-- Embedding of the `ExecutionResult` interface.  Optional fields are
`Option`; textual payloads are transport-encoded. -/
structure ExecutionResult where
  stdout : Option String
  stderr : Option String
  compile_output : Option String
  status : ResultStatus
  time : Option String
  memory : Option Nat
deriving DecidableEq

/-- JavaScript truthiness of an optional string field: present and
non-empty. -/
def jsTruthy : Option String → Bool
  | some s => s != ""
  | none => false

/-- Value of an optional string field (empty when absent). -/
def jsGet : Option String → String
  | some s => s
  | none => ""

/-- Conditional payload append: when the field is truthy the source
appends the connective text followed by the decoded field. -/
def payloadText (conn : String) (field : Option String) : String :=
  match field with
  | some s => if s != "" then conn ++ decodeBase64 s else ""
  | none => ""

/-- Display of the elapsed time: the time string, or the placeholder
when the field is absent or empty (JS falsiness of `result.time`). -/
def displayTime : Option String → String
  | some t => if t != "" then t else "N/A"
  | none => "N/A"

/-- Display of the peak memory: the memory number, or the placeholder
when the field is absent or zero (JS falsiness of `result.memory`). -/
def displayMemory : Option Nat → String
  | some m => if m != 0 then toString m else "N/A"
  | none => "N/A"

/-- The trailing `--- Execution Info ---` block appended by
`formatOutput`. -/
def execInfo (r : ExecutionResult) : String :=
  "\n\n--- Execution Info ---"
    ++ ("\nStatus: " ++ r.status.description ++ " (" ++ toString r.status.id ++ ")")
    ++ ("\nTime: " ++ displayTime r.time ++ "s")
    ++ ("\nMemory: " ++ displayMemory r.memory ++ " KB")

/-- The status-code dispatch of `Judge0Service.formatOutput` (the `output`
value built before the execution-info block). -/
def formatBody (r : ExecutionResult) : String :=
  if r.status.id = 3 then
    match r.stdout with
    | some s =>
      if s != "" then "Output:\n" ++ decodeBase64 s
      else "Code executed successfully (no output)"
    | none => "Code executed successfully (no output)"
  else if r.status.id = 4 then
    "Wrong Answer\n" ++ payloadText "Output:\n" r.stdout
  else if r.status.id = 5 then
    "Time Limit Exceeded\n"
  else if r.status.id = 6 then
    "Compilation Error:\n" ++ payloadText "" r.compile_output
  else if r.status.id = 7 then
    "Runtime Error (Segmentation Fault)\n" ++ payloadText "Error Details:\n" r.stderr
  else if r.status.id = 8 then
    "Runtime Error (File Size Limit Exceeded)\n"
  else if r.status.id = 9 then
    "Runtime Error (Floating Point Exception)\n"
  else if r.status.id = 10 then
    "Runtime Error (Aborted)\n"
  else if r.status.id = 11 then
    "Runtime Error (Non-zero Exit Code)\n" ++ payloadText "Error Details:\n" r.stderr
  else if r.status.id = 12 then
    "Runtime Error\n" ++ payloadText "Error Details:\n" r.stderr
  else if r.status.id = 13 then
    "Internal Error: Please try again later\n"
  else if r.status.id = 14 then
    "Execution Format Error\n"
  else
    ("Unknown Status (" ++ toString r.status.id ++ "): " ++ r.status.description ++ "\n")
      ++ payloadText "\nOutput:\n" r.stdout
      ++ payloadText "\nErrors:\n" r.stderr
      ++ payloadText "\nCompilation:\n" r.compile_output

/-- Embedding of `Judge0Service.formatOutput`: the status-dispatched body
followed by the execution-info block. -/
def formatOutput (r : ExecutionResult) : String :=
  formatBody r ++ execInfo r

/-! ## The §4.1 status-to-content policy table -/

/-- The three optional payload fields of an execution result. -/
inductive PayloadField
  | fstdout
  | fstderr
  | fcompile
deriving DecidableEq

/-- Content of a payload field of a result. -/
def fieldContent (r : ExecutionResult) : PayloadField → Option String
  | .fstdout => r.stdout
  | .fstderr => r.stderr
  | .fcompile => r.compile_output

/-- One row of the §4.1 policy table: the narrative header for the status,
an optional note used when every listed field is absent/empty, and the
payload fields to include (with their display connectives), in order. -/
structure StatusPolicy where
  header : String
  emptyNote : Option String
  fields : List (PayloadField × String)

/-- The §4.1 status-to-content policy table for codes 3–14: which payload
fields the display text includes for each status code. -/
def policyTable (code : Int) : StatusPolicy :=
  if code = 3 then
    ⟨"", some "Code executed successfully (no output)", [(.fstdout, "Output:\n")]⟩
  else if code = 4 then ⟨"Wrong Answer\n", none, [(.fstdout, "Output:\n")]⟩
  else if code = 5 then ⟨"Time Limit Exceeded\n", none, []⟩
  else if code = 6 then ⟨"Compilation Error:\n", none, [(.fcompile, "")]⟩
  else if code = 7 then
    ⟨"Runtime Error (Segmentation Fault)\n", none, [(.fstderr, "Error Details:\n")]⟩
  else if code = 8 then ⟨"Runtime Error (File Size Limit Exceeded)\n", none, []⟩
  else if code = 9 then ⟨"Runtime Error (Floating Point Exception)\n", none, []⟩
  else if code = 10 then ⟨"Runtime Error (Aborted)\n", none, []⟩
  else if code = 11 then
    ⟨"Runtime Error (Non-zero Exit Code)\n", none, [(.fstderr, "Error Details:\n")]⟩
  else if code = 12 then ⟨"Runtime Error\n", none, [(.fstderr, "Error Details:\n")]⟩
  else if code = 13 then ⟨"Internal Error: Please try again later\n", none, []⟩
  else ⟨"Execution Format Error\n", none, []⟩

/-- Render the listed payload fields of a policy row, in order; a field
contributes text only when present and non-empty. -/
def renderFields (r : ExecutionResult) : List (PayloadField × String) → String
  | [] => ""
  | fc :: rest => payloadText fc.2 (fieldContent r fc.1) ++ renderFields r rest

/-- Display body dictated by the §4.1 policy table: the status header plus
exactly the decoded payload fields the table lists for the status code
(the empty-note replaces everything when the listed fields are all
absent/empty). -/
def specFormatBody (r : ExecutionResult) : String :=
  let p := policyTable r.status.id
  match p.emptyNote with
  | some note =>
    if p.fields.all (fun fc => !jsTruthy (fieldContent r fc.1)) then note
    else p.header ++ renderFields r p.fields
  | none => p.header ++ renderFields r p.fields

/-- C1: for every execution result whose status code is 3–14, the display
text equals the §4.1-table-dictated body (exactly the decoded payload
fields the table lists for that code, each only when present and
non-empty, all other payload fields omitted) followed by the execution
info block — regardless of which of stdout/stderr/compile_output are
present in the input. -/
theorem formatOutput_policy_table (r : ExecutionResult)
    (h3 : 3 ≤ r.status.id) (h14 : r.status.id ≤ 14) :
    formatOutput r = specFormatBody r ++ execInfo r := by
  obtain ⟨so, se, co, ⟨id, desc⟩, ti, me⟩ := r
  dsimp only at h3 h14
  simp only [formatOutput]
  congr 1
  interval_cases id
  · cases so with
    | none => rfl
    | some s =>
      cases hs : s != "" <;>
        simp [formatBody, specFormatBody, policyTable, renderFields, payloadText,
          fieldContent, jsTruthy, hs]
  all_goals
    simp [formatBody, specFormatBody, policyTable, renderFields, payloadText, fieldContent]

/-- A sample result (status 6 with every payload field present) at which
the policy-table theorem is instantiated. -/
def policySample : ExecutionResult :=
  ⟨some "aGk=", some "ZXJy", some "Y28=", ⟨6, "Compilation Error"⟩, some "0.01", some 512⟩

theorem formatOutput_policy_table_witness :
    formatOutput policySample = specFormatBody policySample ++ execInfo policySample :=
  formatOutput_policy_table policySample (by decide) (by decide)

/-- A result whose `time` field is present but empty and whose `memory`
field is present but zero. -/
def summarySample : ExecutionResult :=
  ⟨none, none, none, ⟨3, "Accepted"⟩, some "", some 0⟩

/-- C5 counterexample: the summary block does NOT show the placeholder
"exactly when the field is absent" — here `time` and `memory` are both
present (empty string / zero), yet both render as `N/A`, because the
source uses JS falsiness (`result.time || "N/A"`, `result.memory || "N/A"`). -/
theorem formatOutput_placeholder_counterexample :
    summarySample.time ≠ none ∧ summarySample.memory ≠ none ∧
    formatOutput summarySample =
      "Code executed successfully (no output)\n\n--- Execution Info ---\nStatus: Accepted (3)\nTime: N/As\nMemory: N/A KB" := by
  refine ⟨by decide, by decide, ?_⟩
  rfl

/-- C5 (amended): `formatOutput` always appends a trailing summary block
with the status description and numeric code verbatim, the elapsed time —
with the `N/A` placeholder exactly when the field is absent or empty —
and the peak memory — with the `N/A` placeholder exactly when the field
is absent or zero. -/
theorem formatOutput_summary_block (r : ExecutionResult) :
    ∃ body td md,
      formatOutput r =
        body ++ ("\n\n--- Execution Info ---"
          ++ ("\nStatus: " ++ r.status.description ++ " (" ++ toString r.status.id ++ ")")
          ++ ("\nTime: " ++ td ++ "s")
          ++ ("\nMemory: " ++ md ++ " KB")) ∧
      ((r.time = none ∨ r.time = some "") → td = "N/A") ∧
      (∀ t, r.time = some t → t ≠ "" → td = t) ∧
      ((r.memory = none ∨ r.memory = some 0) → md = "N/A") ∧
      (∀ m, r.memory = some m → m ≠ 0 → md = toString m) := by
  refine ⟨formatBody r, displayTime r.time, displayMemory r.memory, rfl, ?_, ?_, ?_, ?_⟩
  · rintro (h | h) <;> simp [h, displayTime]
  · intro t ht hne
    simp [ht, displayTime, hne]
  · rintro (h | h) <;> simp [h, displayMemory]
  · intro m hm hne
    simp [hm, displayMemory, hne]

theorem formatOutput_summary_block_witness :
    ∃ body td md,
      formatOutput summarySample =
        body ++ ("\n\n--- Execution Info ---"
          ++ ("\nStatus: " ++ summarySample.status.description
              ++ " (" ++ toString summarySample.status.id ++ ")")
          ++ ("\nTime: " ++ td ++ "s")
          ++ ("\nMemory: " ++ md ++ " KB")) ∧
      ((summarySample.time = none ∨ summarySample.time = some "") → td = "N/A") ∧
      (∀ t, summarySample.time = some t → t ≠ "" → td = t) ∧
      ((summarySample.memory = none ∨ summarySample.memory = some 0) → md = "N/A") ∧
      (∀ m, summarySample.memory = some m → m ≠ 0 → md = toString m) :=
  formatOutput_summary_block summarySample

/-! ## The polling loop of `executeCode` -/

/-- The string returned when the 30-attempt budget is exhausted. -/
def timeoutMessage : String := "Error: Code execution timed out after 30 seconds"

/-- Embedding of the polling loop inside `Judge0Service.executeCode`.
`fetch k` is the outcome of the `k`-th status fetch for the submitted
token; `attempts` is the loop counter of the source and
`fuel = maxAttempts - attempts` makes the `while attempts < maxAttempts`
guard structural.  The second component instruments the number of status
fetches performed. -/
def pollLoop (fetch : Nat → Except String ExecutionResult) :
    Nat → Nat → Except String String × Nat
  | _, 0 => (.ok timeoutMessage, 0)
  | attempts, fuel + 1 =>
    match fetch attempts with
    | .error e => (.error e, 1)
    | .ok r =>
      if r.status.id ≤ 2 then
        let p := pollLoop fetch (attempts + 1) fuel
        (p.1, p.2 + 1)
      else (.ok (formatOutput r), 1)

/-- The full polling phase: loop counter 0, maximum 30 attempts. -/
def awaitResult (fetch : Nat → Except String ExecutionResult) :
    Except String String × Nat :=
  pollLoop fetch 0 30

theorem pollLoop_nonterminal (fetch : Nat → Except String ExecutionResult) :
    ∀ fuel attempts,
      (∀ k, attempts ≤ k → k < attempts + fuel →
        ∃ r, fetch k = .ok r ∧ r.status.id ≤ 2) →
      pollLoop fetch attempts fuel = (.ok timeoutMessage, fuel) := by
  intro fuel
  induction fuel with
  | zero => intro attempts _; rfl
  | succ m ih =>
    intro attempts h
    obtain ⟨r, hr, hid⟩ := h attempts (Nat.le_refl _) (by omega)
    simp only [pollLoop, hr]
    rw [if_pos hid]
    rw [ih (attempts + 1) (fun k hk1 hk2 => h k (by omega) (by omega))]

/-- C3: when every poll within the 30-attempt budget reports a
non-terminal status, the polling loop performs exactly 30 fetches and
terminates with the timeout sentinel string — a normal return, not a
thrown error and not a terminal execution result. -/
theorem awaitResult_timeout (fetch : Nat → Except String ExecutionResult)
    (h : ∀ k, k < 30 → ∃ r, fetch k = .ok r ∧ r.status.id ≤ 2) :
    awaitResult fetch = (.ok timeoutMessage, 30) := by
  unfold awaitResult
  exact pollLoop_nonterminal fetch 30 0 (fun k _ hk2 => h k (by omega))

/-- A result reporting status 1 ("In Queue"). -/
def queuedResult : ExecutionResult := ⟨none, none, none, ⟨1, "In Queue"⟩, none, none⟩

theorem awaitResult_timeout_witness :
    awaitResult (fun _ => .ok queuedResult) = (.ok timeoutMessage, 30) :=
  awaitResult_timeout _ (fun _ _ => ⟨queuedResult, rfl, by decide⟩)

theorem pollLoop_reach (fetch : Nat → Except String ExecutionResult) :
    ∀ fuel attempts n, attempts ≤ n → n < attempts + fuel →
      (∀ k, attempts ≤ k → k < n → ∃ r, fetch k = .ok r ∧ r.status.id ≤ 2) →
      ∀ r, fetch n = .ok r → 2 < r.status.id →
      pollLoop fetch attempts fuel = (.ok (formatOutput r), n - attempts + 1) := by
  intro fuel
  induction fuel with
  | zero =>
    intro attempts n h1 h2
    exact absurd h2 (by omega)
  | succ m ih =>
    intro attempts n h1 h2 hpre r hr hterm
    by_cases heq : attempts = n
    · subst heq
      simp only [pollLoop, hr]
      rw [if_neg (by omega)]
      simp only [Prod.mk.injEq]
      exact ⟨by trivial, by omega⟩
    · obtain ⟨r0, hr0, hid0⟩ := hpre attempts (Nat.le_refl _) (by omega)
      simp only [pollLoop, hr0]
      rw [if_pos hid0]
      rw [ih (attempts + 1) n (by omega) (by omega)
        (fun k hk1 hk2 => hpre k (by omega) hk2) r hr hterm]
      simp only [Prod.mk.injEq]
      exact ⟨by trivial, by omega⟩

/-- C2 (amended): the loop treats a status as non-terminal exactly when
its id is ≤ 2 (queued = 1, processing = 2, and also any id below 1); the
first poll reporting an id > 2 ends the loop, whose result is that
fetched result formatted, with no further polling (exactly n + 1 fetches
when the terminal poll is the n-th). -/
theorem pollLoop_first_terminal (fetch : Nat → Except String ExecutionResult)
    (n : Nat) (hn : n < 30)
    (hpre : ∀ k, k < n → ∃ r, fetch k = .ok r ∧ r.status.id ≤ 2)
    (r : ExecutionResult) (hr : fetch n = .ok r) (hterm : 2 < r.status.id) :
    awaitResult fetch = (.ok (formatOutput r), n + 1) := by
  unfold awaitResult
  have h := pollLoop_reach fetch 30 0 n (Nat.zero_le _) (by omega)
    (fun k _ hk2 => hpre k hk2) r hr hterm
  simpa using h

/-- A result reporting status 3 ("Accepted") with stdout `hi\n`. -/
def acceptedResult : ExecutionResult :=
  ⟨some "aGkK", none, none, ⟨3, "Accepted"⟩, some "0.01", some 1024⟩

/-- Polls report "queued" twice, then "accepted". -/
def sampleFetch : Nat → Except String ExecutionResult :=
  fun k => if k < 2 then .ok queuedResult else .ok acceptedResult

theorem pollLoop_first_terminal_witness :
    awaitResult sampleFetch = (.ok (formatOutput acceptedResult), 3) :=
  pollLoop_first_terminal sampleFetch 2 (by decide)
    (fun k hk => ⟨queuedResult, by simp [sampleFetch, hk], by decide⟩)
    acceptedResult (by simp [sampleFetch]) (by decide)

/-- A result reporting status id 0 (no such Judge0 status; below the
queued/processing pair). -/
def statusZeroResult : ExecutionResult := ⟨none, none, none, ⟨0, "Unknown"⟩, none, none⟩

/-- C2 counterexample: the claim says any status code other than 1 and 2 —
"including ids 0 and below" — ends the loop at the first poll reporting
it.  But the source continues on `result.status.id <= 2`: with every poll
reporting id 0 the loop never ends early — it polls all 30 times and
times out, and its outcome is not the formatted first poll. -/
theorem pollLoop_status_zero_counterexample :
    awaitResult (fun _ => .ok statusZeroResult) = (.ok timeoutMessage, 30) ∧
    timeoutMessage ≠ formatOutput statusZeroResult := by
  constructor
  · rfl
  · decide

/-! ## `submitCode`, `getResult`, `executeCode` -/

/-- Substring containment on characters — JS `String.prototype.includes`. -/
def listContainsSub (sub : List Char) : List Char → Bool
  | [] => sub.isEmpty
  | c :: t => sub.isPrefixOf (c :: t) || listContainsSub sub t

/-- Embedding of `m.includes(pat)` on strings. -/
def strIncludes (m pat : String) : Bool := listContainsSub pat.data m.data

/-- The parsed JSON body of a submission response (each field may be
absent; JSON parsing itself is oracle data, since the repository does not
implement JSON). -/
structure SubmitBody where
  error : Option String
  message : Option String
  token : Option String

/-- A submission HTTP response as seen by `submitCode`: HTTP success flag
and status, raw body text, the parsed body (`none` when `JSON.parse`
throws) and the parse-failure message thrown in that case. -/
structure SubmitResponse where
  ok : Bool
  status : Nat
  text : String
  parsed : Option SubmitBody
  parseMsg : String

/-- A status-fetch HTTP response as seen by `getResult`. -/
structure PollResponse where
  ok : Bool
  status : Nat
  text : String
  parsed : Option ExecutionResult
  parseMsg : String

/-- The environment of one `executeCode` run: the configuration read from
the constructor, plus the remote service's responses (one submission
response, and one status-fetch response per poll attempt). -/
structure Judge0Env where
  apiKey : String
  apiHost : String
  apiUrl : String
  submitResponse : SubmitResponse
  pollResponses : Nat → PollResponse

/-- Message of the configuration error thrown when no API key is set. -/
def configErrorMessage : String :=
  "Judge0 API key not configured. Please check your .env.local file."

/-- Appended service-message fragment for a truthy JSON field
(the source does `errorMessage += " - " + field`). -/
def appendField (o : Option String) : String :=
  if jsTruthy o then " - " ++ jsGet o else ""

/-- Embedding of `Judge0Service.submitCode`: guard on the configured key,
then one POST whose response is `env.submitResponse`.  First component is
the returned token or the thrown error's message; the second counts the
network requests issued. -/
def submitCode (env : Judge0Env) (languageId : Int) (sourceCode stdin : String) :
    Except String String × Nat :=
  if env.apiKey == "" then (.error configErrorMessage, 0)
  else
    let _requestBody : Int × String × String :=
      (languageId, encodeBase64 sourceCode,
        if stdin != "" then encodeBase64 stdin else "")
    let resp := env.submitResponse
    if !resp.ok then
      let base := "HTTP error! status: " ++ toString resp.status
      match resp.parsed with
      | some body => (.error (base ++ appendField body.error ++ appendField body.message), 1)
      | none => (.error (base ++ " - " ++ resp.text), 1)
    else
      match resp.parsed with
      | none => (.error resp.parseMsg, 1)
      | some body =>
        if jsTruthy body.token then (.ok (jsGet body.token), 1)
        else (.error "No token received from Judge0 API", 1)

/-- Embedding of `Judge0Service.getResult`: guard on the configured key,
then one GET for the token, whose response is `env.pollResponses k` on
the `k`-th attempt. -/
def getResult (env : Judge0Env) (token : String) (k : Nat) :
    Except String ExecutionResult × Nat :=
  if env.apiKey == "" then (.error configErrorMessage, 0)
  else
    let resp := env.pollResponses k
    if !resp.ok then
      (.error ("HTTP error! status: " ++ toString resp.status ++ " - " ++ resp.text), 1)
    else
      match resp.parsed with
      | none => (.error resp.parseMsg, 1)
      | some r => (.ok r, 1)

/-- The `try` block of `executeCode`: submit, then poll up to 30 times.
Components: outcome, submission network requests, status-fetch calls. -/
def executeCodeRaw (env : Judge0Env) (languageId : Int) (sourceCode stdin : String) :
    Except String String × Nat × Nat :=
  match submitCode env languageId sourceCode stdin with
  | (.error e, sc) => (.error e, sc, 0)
  | (.ok token, sc) =>
    let p := pollLoop (fun k => (getResult env token k).1) 0 30
    (p.1, sc, p.2)

/-- The guidance strings of the `catch` block of `executeCode`. -/
def invalidKeyGuidance : String :=
  "Error: Invalid API key. Please check your Judge0 API configuration."

def forbiddenGuidance : String :=
  "Error: API access forbidden. Please check your Judge0 subscription."

def rateLimitGuidance : String :=
  "Error: Rate limit exceeded. Please try again later."

def configGuidance : String :=
  "Error: Judge0 API key not configured. Please add NEXT_PUBLIC_JUDGE0_API_KEY to your .env.local file."

/-- The `catch` block of `executeCode`: recognized substrings of the
failure message are rewritten into guidance text; anything else is
re-thrown. -/
def translateError (m : String) : Option String :=
  if strIncludes m "401" then some invalidKeyGuidance
  else if strIncludes m "403" then some forbiddenGuidance
  else if strIncludes m "429" then some rateLimitGuidance
  else if strIncludes m "API key not configured" then some configGuidance
  else none

/-- Embedding of `Judge0Service.executeCode`: the `try` pipeline with the
`catch` translator around it. -/
def executeCode (env : Judge0Env) (languageId : Int) (sourceCode stdin : String) :
    Except String String :=
  match (executeCodeRaw env languageId sourceCode stdin).1 with
  | .ok s => .ok s
  | .error m =>
    match translateError m with
    | some g => .ok g
    | none => .error m

/-- C6: with no configured API key, `submitCode` fails with the
configuration error having issued zero network requests, and the whole
`executeCode` pipeline likewise performs zero submission and zero polling
requests (the failure is never retried); the catch block reports it
immediately as the configuration guidance text. -/
theorem submitCode_missing_key (env : Judge0Env) (languageId : Int)
    (sourceCode stdin : String) (h : env.apiKey = "") :
    submitCode env languageId sourceCode stdin = (.error configErrorMessage, 0) ∧
    executeCodeRaw env languageId sourceCode stdin = (.error configErrorMessage, 0, 0) ∧
    executeCode env languageId sourceCode stdin = .ok configGuidance := by
  have hb : (env.apiKey == "") = true := by simp [h]
  have h1 : submitCode env languageId sourceCode stdin = (.error configErrorMessage, 0) := by
    unfold submitCode
    rw [if_pos hb]
  have h2 : executeCodeRaw env languageId sourceCode stdin
      = (.error configErrorMessage, 0, 0) := by
    unfold executeCodeRaw
    rw [h1]
  refine ⟨h1, h2, ?_⟩
  unfold executeCode
  rw [h2]
  rfl

/-- An environment with no API key configured (the remote service would
even answer successfully — it is never asked). -/
def emptyKeyEnv : Judge0Env :=
  ⟨"", "host", "url", ⟨true, 201, "", some ⟨none, none, some "tok"⟩, ""⟩,
    fun _ => ⟨true, 200, "", some queuedResult, ""⟩⟩

theorem submitCode_missing_key_witness :
    submitCode emptyKeyEnv 71 "print(1)" "" = (.error configErrorMessage, 0) ∧
    executeCodeRaw emptyKeyEnv 71 "print(1)" "" = (.error configErrorMessage, 0, 0) ∧
    executeCode emptyKeyEnv 71 "print(1)" "" = .ok configGuidance :=
  submitCode_missing_key emptyKeyEnv 71 "print(1)" "" rfl

/-- C10: the same missing-credential guard also protects the status-fetch
operation: with no configured API key, `getResult` fails with the
configuration error before issuing any network request. -/
theorem getResult_missing_key (env : Judge0Env) (token : String) (k : Nat)
    (h : env.apiKey = "") :
    getResult env token k = (.error configErrorMessage, 0) := by
  have hb : (env.apiKey == "") = true := by simp [h]
  unfold getResult
  rw [if_pos hb]

theorem getResult_missing_key_witness :
    getResult emptyKeyEnv "tok" 0 = (.error configErrorMessage, 0) :=
  getResult_missing_key emptyKeyEnv "tok" 0 rfl

/-- C7: when the `try` pipeline of `executeCode` fails with message `m`,
the catch block rewrites `m` into guidance when it contains one of the
recognized substrings — `401` always yields the API-key guidance, and any
recognized `m` yields one of the four guidance texts — while a message
matching none of the substrings propagates unchanged to the caller. -/
theorem executeCode_error_translation (env : Judge0Env) (languageId : Int)
    (sourceCode stdin m : String)
    (h : (executeCodeRaw env languageId sourceCode stdin).1 = .error m) :
    (strIncludes m "401" = true →
      executeCode env languageId sourceCode stdin = .ok invalidKeyGuidance) ∧
    ((strIncludes m "401" || strIncludes m "403" || strIncludes m "429" ||
        strIncludes m "API key not configured") = true →
      ∃ g, executeCode env languageId sourceCode stdin = .ok g ∧
        (g = invalidKeyGuidance ∨ g = forbiddenGuidance ∨ g = rateLimitGuidance ∨
          g = configGuidance)) ∧
    ((strIncludes m "401" || strIncludes m "403" || strIncludes m "429" ||
        strIncludes m "API key not configured") = false →
      executeCode env languageId sourceCode stdin = .error m) := by
  have key : executeCode env languageId sourceCode stdin =
      match translateError m with
      | some g => .ok g
      | none => .error m := by
    unfold executeCode
    rw [h]
  refine ⟨?_, ?_, ?_⟩
  · intro h401
    have ht : translateError m = some invalidKeyGuidance := by
      unfold translateError
      rw [if_pos h401]
    rw [key, ht]
  · intro hany
    by_cases h1 : strIncludes m "401" = true
    · have ht : translateError m = some invalidKeyGuidance := by
        unfold translateError
        rw [if_pos h1]
      exact ⟨invalidKeyGuidance, by rw [key, ht], Or.inl rfl⟩
    · by_cases h2 : strIncludes m "403" = true
      · have ht : translateError m = some forbiddenGuidance := by
          unfold translateError
          rw [if_neg h1, if_pos h2]
        exact ⟨forbiddenGuidance, by rw [key, ht], Or.inr (Or.inl rfl)⟩
      · by_cases h3 : strIncludes m "429" = true
        · have ht : translateError m = some rateLimitGuidance := by
            unfold translateError
            rw [if_neg h1, if_neg h2, if_pos h3]
          exact ⟨rateLimitGuidance, by rw [key, ht], Or.inr (Or.inr (Or.inl rfl))⟩
        · have h4 : strIncludes m "API key not configured" = true := by
            rw [Bool.not_eq_true] at h1 h2 h3
            simpa [h1, h2, h3] using hany
          have ht : translateError m = some configGuidance := by
            unfold translateError
            rw [if_neg h1, if_neg h2, if_neg h3, if_pos h4]
          exact ⟨configGuidance, by rw [key, ht], Or.inr (Or.inr (Or.inr rfl))⟩
  · intro hnone
    simp only [Bool.or_eq_false_iff] at hnone
    obtain ⟨⟨⟨h1, h2⟩, h3⟩, h4⟩ := hnone
    have ht : translateError m = none := by
      unfold translateError
      rw [if_neg (by simp [h1]), if_neg (by simp [h2]), if_neg (by simp [h3]),
        if_neg (by simp [h4])]
    rw [key, ht]

/-- An environment whose submission is rejected with HTTP 401 and an
unparsable body. -/
def deniedEnv : Judge0Env :=
  ⟨"key", "host", "url", ⟨false, 401, "Unauthorized", none, ""⟩,
    fun _ => ⟨true, 200, "", some queuedResult, ""⟩⟩

theorem executeCode_error_translation_witness :
    executeCode deniedEnv 71 "print(1)" "" = .ok invalidKeyGuidance :=
  (executeCode_error_translation deniedEnv 71 "print(1)" ""
    "HTTP error! status: 401 - Unauthorized" rfl).1 (by decide)

/-- C8: with a key configured, a non-success submission response makes
`submitCode` fail with the HTTP-error message carrying the status code
and any (truthy) service-supplied `error`/`message` fields — or the raw
body text when the body does not parse — and a success response whose
body has no (truthy) token field fails with the malformed-response
protocol error; in neither case is a token returned. -/
theorem submitCode_rejection_protocol (env : Judge0Env) (languageId : Int)
    (sourceCode stdin : String) (hk : env.apiKey ≠ "") :
    (env.submitResponse.ok = false →
      ∀ body, env.submitResponse.parsed = some body →
        submitCode env languageId sourceCode stdin =
          (.error ("HTTP error! status: " ++ toString env.submitResponse.status ++
            appendField body.error ++ appendField body.message), 1)) ∧
    (env.submitResponse.ok = false → env.submitResponse.parsed = none →
      submitCode env languageId sourceCode stdin =
        (.error ("HTTP error! status: " ++ toString env.submitResponse.status ++
          " - " ++ env.submitResponse.text), 1)) ∧
    (env.submitResponse.ok = true →
      ∀ body, env.submitResponse.parsed = some body → jsTruthy body.token = false →
        submitCode env languageId sourceCode stdin =
          (.error "No token received from Judge0 API", 1)) := by
  have hbk : (env.apiKey == "") = false := beq_eq_false_iff_ne.mpr hk
  refine ⟨?_, ?_, ?_⟩
  · intro hok body hparsed
    simp only [submitCode]
    rw [if_neg (by simp [hbk]), if_pos (by simp [hok]), hparsed]
  · intro hok hparsed
    simp only [submitCode]
    rw [if_neg (by simp [hbk]), if_pos (by simp [hok]), hparsed]
  · intro hok body hparsed htok
    simp only [submitCode]
    rw [if_neg (by simp [hbk]), if_neg (by simp [hok]), hparsed]
    simp [htok]

/-- An environment whose submission is rejected with HTTP 429 and a
parsed body carrying service messages. -/
def rejectedEnv : Judge0Env :=
  ⟨"key", "host", "url",
    ⟨false, 429, "busy", some ⟨some "rate limit", some "try later", none⟩, ""⟩,
    fun _ => ⟨true, 200, "", some queuedResult, ""⟩⟩

/-- An environment whose submission succeeds but whose response body has
no token. -/
def noTokenEnv : Judge0Env :=
  ⟨"key", "host", "url", ⟨true, 201, "ok", some ⟨none, none, none⟩, ""⟩,
    fun _ => ⟨true, 200, "", some queuedResult, ""⟩⟩

theorem submitCode_rejection_protocol_witness :
    submitCode rejectedEnv 71 "print(1)" "" =
      (.error ("HTTP error! status: " ++ toString (429 : Nat) ++
        appendField (some "rate limit") ++ appendField (some "try later")), 1) ∧
    submitCode noTokenEnv 71 "print(1)" "" =
      (.error "No token received from Judge0 API", 1) :=
  ⟨(submitCode_rejection_protocol rejectedEnv 71 "print(1)" "" (by decide)).1
      rfl ⟨some "rate limit", some "try later", none⟩ rfl,
    (submitCode_rejection_protocol noTokenEnv 71 "print(1)" "" (by decide)).2.2
      rfl ⟨none, none, none⟩ rfl rfl⟩

/-! ## Template loading (`src/lib/templates.ts`) -/

/-- Embedding of the `CodeTemplate` interface. -/
structure CodeTemplate where
  value : String
  label : String
  judge0Id : Int
  description : String
  defaultCode : String
  exampleInput : String
  exampleOutput : String
deriving DecidableEq

/-- Embedding of `loadTemplate`: the fetch-and-parse of
`/templates/{language}.json` is oracle data (`.error` covers both a
non-ok response and a JSON parse failure); every failure is caught and
turned into `none`. -/
def loadTemplate (fetch : String → Except String CodeTemplate) (language : String) :
    Option CodeTemplate :=
  match fetch language with
  | .ok data => some data
  | .error _ => none

/-- The fixed language list of `loadAllTemplates`. -/
def templateLanguages : List String :=
  ["javascript", "python", "java", "cpp", "csharp", "go"]

/-- The accumulation loop of `loadAllTemplates`: push each successfully
loaded template, skip the rest. -/
def loadTemplatesLoop (fetch : String → Except String CodeTemplate) :
    List String → List CodeTemplate
  | [] => []
  | lang :: rest =>
    match loadTemplate fetch lang with
    | some t => t :: loadTemplatesLoop fetch rest
    | none => loadTemplatesLoop fetch rest

/-- Embedding of `loadAllTemplates`. -/
def loadAllTemplates (fetch : String → Except String CodeTemplate) : List CodeTemplate :=
  loadTemplatesLoop fetch templateLanguages

theorem loadTemplatesLoop_filterMap (fetch : String → Except String CodeTemplate) :
    ∀ langs : List String,
      loadTemplatesLoop fetch langs = langs.filterMap (loadTemplate fetch)
  | [] => rfl
  | lang :: rest => by
    rw [loadTemplatesLoop, List.filterMap_cons, loadTemplatesLoop_filterMap fetch rest]
    cases loadTemplate fetch lang <;> rfl

/-- C9: a failed (or absent) template fetch yields `none` for that
language rather than a fatal error, and `loadAllTemplates` continues with
the remaining languages, returning exactly the descriptors of the
languages that loaded successfully, in order. -/
theorem loadAllTemplates_skips_failures (fetch : String → Except String CodeTemplate)
    (language e : String) (he : fetch language = .error e) :
    loadTemplate fetch language = none ∧
    loadAllTemplates fetch = templateLanguages.filterMap (loadTemplate fetch) := by
  constructor
  · unfold loadTemplate
    rw [he]
  · exact loadTemplatesLoop_filterMap fetch templateLanguages

/-- A sample template descriptor. -/
def jsTemplate : CodeTemplate :=
  ⟨"javascript", "JavaScript", 63, "Node.js", "console.log(1)", "", "1"⟩

/-- A fetch oracle that succeeds only for `javascript` and `go`. -/
def sampleTemplateFetch : String → Except String CodeTemplate :=
  fun language =>
    if language == "javascript" then .ok jsTemplate
    else if language == "go" then .ok ⟨"go", "Go", 60, "Go", "package main", "", ""⟩
    else .error ("Failed to load template for " ++ language)

theorem loadAllTemplates_skips_failures_witness :
    loadTemplate sampleTemplateFetch "python" = none ∧
    loadAllTemplates sampleTemplateFetch =
      templateLanguages.filterMap (loadTemplate sampleTemplateFetch) :=
  loadAllTemplates_skips_failures sampleTemplateFetch "python"
    "Failed to load template for python" rfl
